import Mathlib

/-!
Verification of the windowed spectrogram generation pipeline of
create-spectrograms (src/__main__.py) against its specification.

The embedding models:
- `output_data_to_csv` (the Labeled-Range Extractor step): the source indexes
  the sample sequence with the full index set `range(state[0], state[1])`
  (numpy fancy indexing), catches `IndexError`, prints two diagnostic lines
  and persists nothing on failure; on success it writes the selected samples
  to a CSV file. We model persistence as the `Except` value: `Except.ok`
  carries the written path and contents, `Except.error` carries the printed
  diagnostic lines.
- `generate_spectrogram_from_data` and `interate_data` (the Sliding-Window
  Spectrogram Renderer): the scipy spectrogram transform is an external
  black box, so the renderer is parametric in a transform function `T`
  mapping the window samples (and the `fs`, `m` parameters) to the power
  grid, flattened to a list of values. `np.seterr(divide='raise')` makes
  `np.log10` raise exactly when the grid contains a zero, before anything is
  drawn; the `except FloatingPointError` branch prints a diagnostic and
  returns. On success the window is drawn onto the shared matplotlib
  surface, saved, and the surface is cleared with `plt.clf()`. The shared
  surface is modelled as the list of grids currently drawn on it, an image
  file as the surface contents at save time.
-/

/-- Model of `output_data_to_csv(output_dir, data, state, filename)`.
The source builds `output_path = os.path.join(output_dir, filename)`, then
evaluates `np.array(data[range(state[0], state[1])])`: numpy fancy indexing
succeeds only if every index in the range is below `len(data)`; otherwise an
`IndexError` is caught, the lines `File: path` and `Size: len` are printed
and nothing is written. On success `np.savetxt` persists the indexed
samples. `Except.ok (path, contents)` models the persisted file,
`Except.error msgs` models the printed diagnostics with no file written. -/
def output_data_to_csv (output_dir : String) (data : List ℚ) (state : ℕ × ℕ)
    (filename : String) : Except (List String) (String × List ℚ) :=
  let output_path := output_dir ++ "/" ++ filename
  let idxs := List.range' state.1 (state.2 - state.1)
  if idxs.all (fun idx => idx < data.length) then
    Except.ok (output_path, idxs.map (fun idx => data.getD idx 0))
  else
    Except.error ["File: " ++ output_path, "Size: " ++ toString data.length]

lemma range'_map_getD (data : List ℚ) :
    ∀ (n a : ℕ), (∀ idx ∈ List.range' a n, idx < data.length) →
      (List.range' a n).map (fun idx => data.getD idx 0) = (data.drop a).take n := by
  intro n
  induction n with
  | zero => intro a _; simp
  | succ n ih =>
    intro a h
    have ha : a < data.length := h a (by simp [List.range'_succ])
    have hhead : data.getD a 0 = data[a] := by
      rw [List.getD_eq_getElem?_getD, List.getElem?_eq_getElem ha]
      rfl
    rw [List.range'_succ, List.map_cons,
        ih (a + 1) (fun idx hidx => h idx (by simp [List.range'_succ, hidx])),
        List.drop_eq_getElem_cons ha, List.take_succ_cons, hhead]

lemma output_data_to_csv_all_in_range (dir fn : String) (data : List ℚ) (a b : ℕ)
    (h : ∀ idx ∈ List.range' a (b - a), idx < data.length) :
    output_data_to_csv dir data (a, b) fn
      = Except.ok (dir ++ "/" ++ fn, (data.drop a).take (b - a)) := by
  unfold output_data_to_csv
  rw [if_pos, range'_map_getD data (b - a) a h]
  rw [List.all_eq_true]
  intro idx hidx
  exact decide_eq_true (h idx hidx)

lemma output_data_to_csv_overrun (dir fn : String) (data : List ℚ) (a b : ℕ)
    (hmem : ∃ idx ∈ List.range' a (b - a), data.length ≤ idx) :
    output_data_to_csv dir data (a, b) fn
      = Except.error ["File: " ++ (dir ++ "/" ++ fn), "Size: " ++ toString data.length] := by
  unfold output_data_to_csv
  rw [if_neg]
  intro hall
  obtain ⟨idx, hidx, hlen⟩ := hmem
  rw [List.all_eq_true] at hall
  have := of_decide_eq_true (hall idx hidx)
  omega

/-- C1 counterexample: sequence of length 1, interval `[0, 2)`. The start
index 0 is within range, so the claim predicts the clipped slice `s[0:1]`
is persisted with no error; the code instead indexes with `range(0, 2)`,
index 1 is out of range, an `IndexError` diagnostic is printed and nothing
is persisted. -/
theorem extract_clipping_counterexample :
    output_data_to_csv "d" ([0] : List ℚ) (0, 2) "f"
      = Except.error ["File: " ++ ("d" ++ "/" ++ "f"), "Size: " ++ toString (1 : ℕ)] := by
  rfl

/-- C1 amended: the Extractor returns and persists exactly `s[a:b]` only
when the whole interval fits, that is when `b ≤ len(s)` (this includes
every empty interval with `b ≤ a`); an end index beyond the data is not
clipped but raises the out-of-range condition (see the C10 theorem). -/
theorem extract_in_range_exact (dir fn : String) (data : List ℚ) (a b : ℕ)
    (h : b ≤ data.length) :
    output_data_to_csv dir data (a, b) fn
      = Except.ok (dir ++ "/" ++ fn, (data.drop a).take (b - a)) := by
  apply output_data_to_csv_all_in_range
  intro idx hidx
  have := List.mem_range'.1 hidx
  omega

theorem extract_in_range_exact_witness :
    (3 ≤ ([2, 3, 5] : List ℚ).length)
      ∧ output_data_to_csv "d" ([2, 3, 5] : List ℚ) (1, 3) "f"
          = Except.ok ("d" ++ "/" ++ "f", (([2, 3, 5] : List ℚ).drop 1).take (3 - 1)) :=
  ⟨by decide, extract_in_range_exact "d" "f" ([2, 3, 5] : List ℚ) 1 3 (by decide)⟩

/-- C5 counterexample: the empty interval `[1, 1)` on an empty sequence has
its start index 1 beyond the data length 0, yet `range(1, 1)` is empty, so
the code reports no out-of-range condition and persists an empty CSV file,
contrary to the claim that every interval with `a > len(s)` reports
`RangeUnavailable` and persists nothing. -/
theorem extract_start_overrun_counterexample :
    output_data_to_csv "d" ([] : List ℚ) (1, 1) "f"
      = Except.ok ("d" ++ "/" ++ "f", []) := by
  rfl

/-- C5 amended: for every nonempty interval `[a,b)` (that is `a < b`) whose
start index satisfies `a > len(s)`, the Extractor reports the out-of-range
condition with a diagnostic carrying the output path and the available
length, and persists no file; an empty interval with `a > len(s)` instead
persists an empty file without any diagnostic. -/
theorem extract_start_overrun_errors (dir fn : String) (data : List ℚ) (a b : ℕ)
    (h1 : data.length < a) (h2 : a < b) :
    output_data_to_csv dir data (a, b) fn
      = Except.error ["File: " ++ (dir ++ "/" ++ fn), "Size: " ++ toString data.length] := by
  apply output_data_to_csv_overrun
  refine ⟨a, List.mem_range'.2 ⟨0, by omega, by omega⟩, by omega⟩

theorem extract_start_overrun_errors_witness :
    (([] : List ℚ).length < 1 ∧ 1 < 2)
      ∧ output_data_to_csv "d" ([] : List ℚ) (1, 2) "f"
          = Except.error ["File: " ++ ("d" ++ "/" ++ "f"),
                          "Size: " ++ toString ([] : List ℚ).length] :=
  ⟨⟨by decide, by decide⟩,
    extract_start_overrun_errors "d" "f" ([] : List ℚ) 1 2 (by decide) (by decide)⟩

/-- C10: for every interval `[a,b)` with `a ≤ len(s) < b`, the indexing by
the full index set `range(a, b)` raises the same out-of-range condition as
an out-of-range start: the diagnostic lines with the output path and the
available length are printed and no CSV file is persisted. -/
theorem extract_end_overrun_errors (dir fn : String) (data : List ℚ) (a b : ℕ)
    (h1 : a ≤ data.length) (h2 : data.length < b) :
    output_data_to_csv dir data (a, b) fn
      = Except.error ["File: " ++ (dir ++ "/" ++ fn), "Size: " ++ toString data.length] := by
  apply output_data_to_csv_overrun
  refine ⟨b - 1, List.mem_range'.2 ⟨b - 1 - a, by omega, by omega⟩, by omega⟩

theorem extract_end_overrun_errors_witness :
    (0 ≤ ([5] : List ℚ).length ∧ ([5] : List ℚ).length < 2)
      ∧ output_data_to_csv "d" ([5] : List ℚ) (0, 2) "f"
          = Except.error ["File: " ++ ("d" ++ "/" ++ "f"),
                          "Size: " ++ toString ([5] : List ℚ).length] :=
  ⟨⟨by decide, by decide⟩,
    extract_end_overrun_errors "d" "f" ([5] : List ℚ) 0 2 (by decide) (by decide)⟩

/-- Output of one `generate_spectrogram_from_data` call: the image files it
wrote (path and image contents, an image being the list of grids present on
the shared drawing surface at save time), the diagnostic lines it printed,
and the state of the shared drawing surface afterwards. -/
structure GenOut where
  files : List (String × List (List ℚ))
  diags : List String
  canvas : List (List ℚ)
deriving Repr

/-- Model of `generate_spectrogram_from_data(fs, m, data, output_filepath)`.
The scipy transform is abstracted as the parameter `T` yielding the power
grid `Sxx` (flattened to a list). With `np.seterr(divide='raise')`, the call
`np.log10(Sxx)` raises `FloatingPointError` exactly when the grid contains a
zero, and it is evaluated before `plt.pcolormesh` draws anything, so the
caught branch prints its diagnostic and leaves the shared surface untouched.
Otherwise the grid is drawn onto the surface, `plt.savefig` writes the
surface contents to `output_filepath`, and `plt.clf()` empties the
surface. -/
def generate_spectrogram_from_data (T : ℕ → ℕ → List ℚ → List ℚ) (fs m : ℕ)
    (data : List ℚ) (output_filepath : String) (canvas : List (List ℚ)) : GenOut :=
  let Sxx := T fs m data
  if (0 : ℚ) ∈ Sxx then
    { files := [], diags := ["Caught divide by 0 error: " ++ output_filepath],
      canvas := canvas }
  else
    { files := [(output_filepath, canvas ++ [Sxx])], diags := [], canvas := [] }

/-- Output of one `interate_data` invocation: the files written, each tagged
with the loop counter value (the window ordinal) current when it was
written, the diagnostics printed, the trace of `(i, j, counter)` triples of
every processed window, and the final drawing-surface state. -/
structure RunOut where
  files : List (ℕ × String × List (List ℚ))
  diags : List String
  trace : List (ℕ × ℕ × ℕ)
  canvas : List (List ℚ)
deriving Repr

/-- Fuel-indexed unfolding of the `while j < len(data)` loop of
`interate_data`: each iteration slices `data[i:j]`, builds the output name
`output_file + underscore + counter`, calls the per-window renderer, then
advances `i`, `j` by the hardcoded `move = 128` and `counter` by one. The
fuel only bounds the iteration count; `interate_data` supplies enough. -/
def interateLoop (T : ℕ → ℕ → List ℚ → List ℚ) (fs m : ℕ) (data : List ℚ)
    (output_file : String) : ℕ → ℕ → ℕ → ℕ → List (List ℚ) → RunOut
  | 0, _, _, _, canvas => { files := [], diags := [], trace := [], canvas := canvas }
  | fuel + 1, i, j, counter, canvas =>
    if j < data.length then
      let sub_data := (data.drop i).take (j - i)
      let sub_output_file := output_file ++ "_" ++ toString counter
      let g := generate_spectrogram_from_data T fs m sub_data sub_output_file canvas
      let rest := interateLoop T fs m data output_file fuel (i + 128) (j + 128)
        (counter + 1) g.canvas
      { files := g.files.map (fun f => (counter, f)) ++ rest.files,
        diags := g.diags ++ rest.diags,
        trace := (i, j, counter) :: rest.trace,
        canvas := rest.canvas }
    else { files := [], diags := [], trace := [], canvas := canvas }

/-- Model of `interate_data(fs, m, data, output_file)`: the loop starts from
the hardcoded `i = 0`, `j = 256`, `counter = 1` and runs on the drawing
surface passed in (the matplotlib global state). -/
def interate_data (T : ℕ → ℕ → List ℚ → List ℚ) (fs m : ℕ) (data : List ℚ)
    (output_file : String) (canvas : List (List ℚ)) : RunOut :=
  interateLoop T fs m data output_file data.length 0 256 1 canvas

/-- Number of iterations of a loop testing `j < n` where `j` advances by
128 each iteration. -/
def countWins (j n : ℕ) : ℕ := if j < n then (n - 1 - j) / 128 + 1 else 0

/-- Number of windows processed by `interate_data` on a sequence of length
`n`: the loop bound `j` starts at the hardcoded 256 and advances by the
hardcoded 128. -/
def totalWindows (n : ℕ) : ℕ := countWins 256 n

/-- Power grid of window number `k` (0-based) for a loop whose slice bounds
started at `i` and `j`. -/
def gridOf (T : ℕ → ℕ → List ℚ → List ℚ) (fs m : ℕ) (data : List ℚ)
    (i j k : ℕ) : List ℚ :=
  T fs m ((data.drop (i + 128 * k)).take (j - i))

/-- Power grid of window number `k` (0-based) of a top-level `interate_data`
invocation: the transform applied to `data[128*k : 128*k + 256]`. -/
def windowGrid (T : ℕ → ℕ → List ℚ → List ℚ) (fs m : ℕ) (data : List ℚ)
    (k : ℕ) : List ℚ :=
  T fs m ((data.drop (128 * k)).take 256)

lemma filter_map_comm {α β : Type} (g : α → β) (p : β → Bool) (l : List α) :
    (l.map g).filter p = (l.filter (fun x => p (g x))).map g := by
  induction l with
  | nil => rfl
  | cons a l ih =>
    by_cases h : p (g a) <;> simp [List.filter_cons, h, ih]

lemma range_map_shift {α : Type} (t : ℕ) (f : ℕ → α) :
    (List.range (t + 1)).map f = f 0 :: (List.range t).map (fun k => f (k + 1)) := by
  rw [List.range_succ_eq_map, List.map_cons, List.map_map]
  rfl

lemma range_filter_map_shift {α : Type} (t : ℕ) (p : ℕ → Bool) (f : ℕ → α) :
    ((List.range (t + 1)).filter p).map f
      = (cond (p 0) [f 0] [])
        ++ ((List.range t).filter (fun k => p (k + 1))).map (fun k => f (k + 1)) := by
  rw [List.range_succ_eq_map, List.filter_cons]
  by_cases h : p 0 = true
  · rw [if_pos h, h, cond_true, List.map_cons, filter_map_comm, List.map_map]
    rfl
  · rw [if_neg h, Bool.eq_false_iff.2 h, cond_false, filter_map_comm, List.map_map]
    rfl

lemma filter_map_congr {α : Type} (l : List ℕ) (p q : ℕ → Bool) (f g : ℕ → α)
    (hpq : ∀ k, p k = q k) (hfg : ∀ k, f k = g k) :
    (l.filter p).map f = (l.filter q).map g := by
  rw [List.filter_congr (fun k _ => hpq k)]
  exact List.map_congr_left (fun k _ => hfg k)

lemma map_congr_fun {α : Type} (l : List ℕ) (f g : ℕ → α) (hfg : ∀ k, f k = g k) :
    l.map f = l.map g :=
  List.map_congr_left (fun k _ => hfg k)

lemma gridOf_shift (T : ℕ → ℕ → List ℚ → List ℚ) (fs m : ℕ) (data : List ℚ)
    (i j k : ℕ) :
    gridOf T fs m data i j (k + 1) = gridOf T fs m data (i + 128) (j + 128) k := by
  unfold gridOf
  rw [show i + 128 * (k + 1) = i + 128 + 128 * k from by ring, Nat.add_sub_add_right]

lemma countWins_step (j n : ℕ) (hj : j < n) :
    countWins j n = countWins (j + 128) n + 1 := by
  unfold countWins
  by_cases h : j + 128 < n
  · rw [if_pos hj, if_pos h]
    omega
  · rw [if_pos hj, if_neg h]
    omega

/-- Full characterization of the `interate_data` loop started on an empty
drawing surface: the trace lists the windows `(i + 128k, j + 128k, c + k)`,
the skipped windows (grid containing a zero) each contribute one diagnostic
line, the rendered windows each contribute one file whose image is exactly
its own grid, and the surface ends empty. -/
lemma interateLoop_eq (T : ℕ → ℕ → List ℚ → List ℚ) (fs m : ℕ) (data : List ℚ)
    (out : String) :
    ∀ (fuel i j c : ℕ), data.length ≤ j + 128 * fuel →
      interateLoop T fs m data out fuel i j c []
        = { files := ((List.range (countWins j data.length)).filter
                       (fun k => !decide ((0 : ℚ) ∈ gridOf T fs m data i j k))).map
                       (fun k => (c + k, out ++ "_" ++ toString (c + k),
                                  [gridOf T fs m data i j k])),
            diags := ((List.range (countWins j data.length)).filter
                       (fun k => decide ((0 : ℚ) ∈ gridOf T fs m data i j k))).map
                       (fun k => "Caught divide by 0 error: "
                                   ++ (out ++ "_" ++ toString (c + k))),
            trace := (List.range (countWins j data.length)).map
                       (fun k => (i + 128 * k, j + 128 * k, c + k)),
            canvas := [] } := by
  intro fuel
  induction fuel with
  | zero =>
    intro i j c h
    have hj : ¬ j < data.length := by omega
    rw [show countWins j data.length = 0 from if_neg hj]
    rfl
  | succ fuel ih =>
    intro i j c h
    by_cases hj : j < data.length
    · have hstep : countWins j data.length = countWins (j + 128) data.length + 1 :=
        countWins_step j data.length hj
      have hrec := ih (i + 128) (j + 128) (c + 1) (by omega)
      have hg0 : gridOf T fs m data i j 0 = T fs m ((data.drop i).take (j - i)) := by
        unfold gridOf
        rw [Nat.mul_zero, Nat.add_zero]
      by_cases hz : (0 : ℚ) ∈ T fs m ((data.drop i).take (j - i))
      · rw [show interateLoop T fs m data out (fuel + 1) i j c []
              = { files := (interateLoop T fs m data out fuel (i + 128) (j + 128)
                              (c + 1) []).files,
                  diags := ("Caught divide by 0 error: " ++ (out ++ "_" ++ toString c))
                             :: (interateLoop T fs m data out fuel (i + 128) (j + 128)
                                  (c + 1) []).diags,
                  trace := (i, j, c) :: (interateLoop T fs m data out fuel (i + 128)
                              (j + 128) (c + 1) []).trace,
                  canvas := (interateLoop T fs m data out fuel (i + 128) (j + 128)
                              (c + 1) []).canvas }
            from by
              simp only [interateLoop, if_pos hj, generate_spectrogram_from_data,
                if_pos hz, List.map_nil, List.nil_append, List.cons_append,
                List.singleton_append]]
        rw [hrec, hstep]
        rw [range_filter_map_shift, range_filter_map_shift, range_map_shift]
        rw [show (!decide ((0 : ℚ) ∈ gridOf T fs m data i j 0)) = false from by
              rw [hg0]; simp [hz]]
        rw [show (decide ((0 : ℚ) ∈ gridOf T fs m data i j 0)) = true from by
              rw [hg0]; simp [hz]]
        rw [cond_false, cond_true, List.nil_append, List.singleton_append]
        rw [RunOut.mk.injEq]
        refine ⟨?_, ?_, ?_, rfl⟩
        · exact filter_map_congr _ _ _ _ _
            (fun k => by rw [gridOf_shift])
            (fun k => by rw [gridOf_shift, show c + (k + 1) = c + 1 + k from by ring])
        · exact congrArg
            (fun l => ("Caught divide by 0 error: " ++ (out ++ "_" ++ toString c)) :: l)
            (filter_map_congr _ _ _ _ _
              (fun k => by rw [gridOf_shift])
              (fun k => by rw [show c + (k + 1) = c + 1 + k from by ring]))
        · exact congrArg (fun l => (i, j, c) :: l)
            (map_congr_fun _ _ _
              (fun k => by
                rw [show i + 128 + 128 * k = i + 128 * (k + 1) from by ring,
                    show j + 128 + 128 * k = j + 128 * (k + 1) from by ring,
                    show c + 1 + k = c + (k + 1) from by ring]))
      · rw [show interateLoop T fs m data out (fuel + 1) i j c []
              = { files := (c, out ++ "_" ++ toString c,
                              [T fs m ((data.drop i).take (j - i))])
                             :: (interateLoop T fs m data out fuel (i + 128) (j + 128)
                                  (c + 1) []).files,
                  diags := (interateLoop T fs m data out fuel (i + 128) (j + 128)
                              (c + 1) []).diags,
                  trace := (i, j, c) :: (interateLoop T fs m data out fuel (i + 128)
                              (j + 128) (c + 1) []).trace,
                  canvas := (interateLoop T fs m data out fuel (i + 128) (j + 128)
                              (c + 1) []).canvas }
            from by
              simp only [interateLoop, if_pos hj, generate_spectrogram_from_data,
                if_neg hz, List.map_cons, List.map_nil, List.nil_append,
                List.cons_append, List.singleton_append]]
        rw [hrec, hstep]
        rw [range_filter_map_shift, range_filter_map_shift, range_map_shift]
        rw [show (!decide ((0 : ℚ) ∈ gridOf T fs m data i j 0)) = true from by
              rw [hg0]; simp [hz]]
        rw [show (decide ((0 : ℚ) ∈ gridOf T fs m data i j 0)) = false from by
              rw [hg0]; simp [hz]]
        rw [cond_true, cond_false, List.nil_append, List.singleton_append]
        rw [RunOut.mk.injEq]
        refine ⟨?_, ?_, ?_, rfl⟩
        · exact congrArg
            (fun l => (c, out ++ "_" ++ toString c,
                        [T fs m ((data.drop i).take (j - i))]) :: l)
            (filter_map_congr _ _ _ _ _
              (fun k => by rw [gridOf_shift])
              (fun k => by rw [gridOf_shift, show c + (k + 1) = c + 1 + k from by ring]))
        · exact filter_map_congr _ _ _ _ _
            (fun k => by rw [gridOf_shift])
            (fun k => by rw [show c + (k + 1) = c + 1 + k from by ring])
        · exact congrArg (fun l => (i, j, c) :: l)
            (map_congr_fun _ _ _
              (fun k => by
                rw [show i + 128 + 128 * k = i + 128 * (k + 1) from by ring,
                    show j + 128 + 128 * k = j + 128 * (k + 1) from by ring,
                    show c + 1 + k = c + (k + 1) from by ring]))
    · rw [show countWins j data.length = 0 from if_neg hj]
      simp only [interateLoop, if_neg hj]
      rfl

/-- Characterization of a top-level `interate_data` invocation started on an
empty drawing surface, in terms of the 0-based window index `k`: window `k`
covers `data[128*k : 128*k + 256]` and carries ordinal `1 + k`. -/
lemma interate_data_eq (T : ℕ → ℕ → List ℚ → List ℚ) (fs m : ℕ) (data : List ℚ)
    (out : String) :
    interate_data T fs m data out []
      = { files := ((List.range (totalWindows data.length)).filter
                     (fun k => !decide ((0 : ℚ) ∈ windowGrid T fs m data k))).map
                     (fun k => (1 + k, out ++ "_" ++ toString (1 + k),
                                [windowGrid T fs m data k])),
          diags := ((List.range (totalWindows data.length)).filter
                     (fun k => decide ((0 : ℚ) ∈ windowGrid T fs m data k))).map
                     (fun k => "Caught divide by 0 error: "
                                 ++ (out ++ "_" ++ toString (1 + k))),
          trace := (List.range (totalWindows data.length)).map
                     (fun k => (128 * k, 256 + 128 * k, 1 + k)),
          canvas := [] } := by
  have hg : ∀ k, gridOf T fs m data 0 256 k = windowGrid T fs m data k := by
    intro k
    unfold gridOf windowGrid
    rw [Nat.zero_add]
  unfold interate_data
  rw [interateLoop_eq T fs m data out data.length 0 256 1 (by omega)]
  rw [RunOut.mk.injEq]
  refine ⟨?_, ?_, ?_, rfl⟩
  · exact filter_map_congr _ _ _ _ _ (fun k => by rw [hg]) (fun k => by rw [hg])
  · exact filter_map_congr _ _ _ _ _ (fun k => by rw [hg]) (fun k => rfl)
  · exact map_congr_fun _ _ _ (fun k => by rw [Nat.zero_add])

lemma totalWindows_closed (n : ℕ) :
    totalWindows n = if 257 ≤ n then (n - 257) / 128 + 1 else 0 := by
  unfold totalWindows countWins
  by_cases h : 256 < n
  · rw [if_pos h, if_pos (by omega)]
    omega
  · rw [if_neg h, if_neg (by omega)]

lemma length_filter_add_length_filter {α : Type} (p q : α → Bool) (l : List α)
    (hpq : ∀ a, q a = !p a) :
    (l.filter p).length + (l.filter q).length = l.length := by
  induction l with
  | nil => rfl
  | cons a l ih =>
    rw [List.filter_cons, List.filter_cons, hpq a]
    by_cases h : p a = true
    · rw [if_pos h, h]
      simp only [Bool.not_true, Bool.false_eq_true, if_false, List.length_cons]
      omega
    · rw [if_neg h, Bool.eq_false_iff.2 h]
      simp only [Bool.not_false, if_true, List.length_cons]
      omega

/-- C2 counterexample: `interate_data` invoked with sample-rate parameter
`fs = 128` and window-length parameter `m = 64` (the observed
configuration) on a sequence of length 65 processes zero windows, because
the loop bound `j` is the hardcoded 256, not the parameter `m`; the claimed
formula `floor((len - m) / fs) + 1 = floor((65 - 64) / 128) + 1 = 1` is at
least 1, so the claim predicts one processed window. -/
theorem render_count_counterexample :
    ((interate_data (fun _ _ l => l) 128 64 (List.replicate 65 (1 : ℚ)) "out" []).files.length
        + (interate_data (fun _ _ l => l) 128 64 (List.replicate 65 (1 : ℚ)) "out" []).diags.length
      = 0)
      ∧ (65 - 64) / 128 + 1 = 1 := by
  exact ⟨rfl, rfl⟩

/-- C2 amended: for every `interate_data` invocation, the number of windows
processed (rendered plus skipped) equals `floor((len(data) - 257) / 128) + 1`
when `len(data) ≥ 257` and 0 otherwise: the count is governed by the
hardcoded initial window bound 256, the hardcoded stride 128 and the strict
loop condition `j < len(data)`, not by the window-length parameter `m` or
the sample-rate parameter `fs`. -/
theorem render_window_count (T : ℕ → ℕ → List ℚ → List ℚ) (fs m : ℕ)
    (data : List ℚ) (out : String) :
    (interate_data T fs m data out []).files.length
        + (interate_data T fs m data out []).diags.length
      = if 257 ≤ data.length then (data.length - 257) / 128 + 1 else 0 := by
  rw [interate_data_eq]
  simp only [List.length_map]
  rw [← totalWindows_closed]
  have h := length_filter_add_length_filter
    (fun k => decide ((0 : ℚ) ∈ windowGrid T fs m data k))
    (fun k => !decide ((0 : ℚ) ∈ windowGrid T fs m data k))
    (List.range (totalWindows data.length)) (fun a => rfl)
  rw [List.length_range] at h
  omega

/-- The windowing policy as claim C4 states it, written from the words of
the specification for comparison against the source loop: the window upper
bound starts at the window-length parameter `m`, the stride is the
sample-rate parameter `fs`, the loop continues while `j < n` and both
bounds advance by the stride. -/
def claimedWindowingLoop (stride n : ℕ) : ℕ → ℕ → ℕ → List (ℕ × ℕ)
  | 0, _, _ => []
  | fuel + 1, i, j =>
    if j < n then (i, j) :: claimedWindowingLoop stride n fuel (i + stride) (j + stride)
    else []

/-- Window list of the claimed policy of C4 on a sequence of length `n`
with sample-rate parameter `fs` and window-length parameter `m`. -/
def claimedWindowingPolicy (fs m n : ℕ) : List (ℕ × ℕ) :=
  claimedWindowingLoop fs n n 0 m

/-- C4 counterexample: with the observed configuration `fs = 128`, `m = 64`
on a sequence of length 100, the claimed policy (start `j = m = 64`, loop
while `j < 100`) processes the window `(0, 64)`, but the code processes no
window at all, because its upper bound starts at the hardcoded 256, which
fails `256 < 100` immediately. -/
theorem render_windowing_policy_counterexample :
    (interate_data (fun _ _ l => l) 128 64 (List.replicate 100 (1 : ℚ)) "out" []).trace = []
      ∧ claimedWindowingPolicy 128 64 100 = [(0, 64)] := by
  exact ⟨rfl, rfl⟩

/-- C4 amended: for every `interate_data` invocation the windowing follows:
start index `i = 0`, window upper bound `j = 256` (hardcoded), stride 128
(hardcoded, equal to the observed sample rate but independent of the `fs`
parameter), ordinal counter starting at 1; the loop continues while
`j < len(data)`, each iteration processes the window starting at `i` with
upper bound `j`, and `i` and `j` each advance by 128. The parameters `m`
and `fs` only feed the per-window transform. -/
theorem render_windowing_policy (T : ℕ → ℕ → List ℚ → List ℚ) (fs m : ℕ)
    (data : List ℚ) (out : String) :
    (interate_data T fs m data out []).trace
      = (List.range (totalWindows data.length)).map
          (fun k => (128 * k, 256 + 128 * k, 1 + k)) := by
  rw [interate_data_eq]

/-- C6: the ordinals assigned to the processed windows form exactly the
sequence 1, 2, ..., total (strictly increasing, no duplicates, no
reordering); a skipped window still consumes its ordinal, and every
rendered file carries the ordinal `1 + k` of its 0-based window position
`k` in its name, not its rank among successful renders. -/
theorem render_ordinals (T : ℕ → ℕ → List ℚ → List ℚ) (fs m : ℕ)
    (data : List ℚ) (out : String) :
    (interate_data T fs m data out []).trace.map (fun w => w.2.2)
        = List.range' 1 (totalWindows data.length)
      ∧ (interate_data T fs m data out []).files.map (fun f => (f.1, f.2.1))
        = ((List.range (totalWindows data.length)).filter
             (fun k => !decide ((0 : ℚ) ∈ windowGrid T fs m data k))).map
             (fun k => (1 + k, out ++ "_" ++ toString (1 + k))) := by
  rw [interate_data_eq]
  constructor
  · rw [List.map_map, List.range'_eq_map_range]
    rfl
  · rw [List.map_map]
    rfl

/-- C3: a window whose power grid contains an exact zero produces no output
file (no written file carries its ordinal), emits the diagnostic naming its
output path, and the loop still processes every window of the sequence: the
failure never aborts the remaining windows. -/
theorem render_zero_grid_skipped (T : ℕ → ℕ → List ℚ → List ℚ) (fs m : ℕ)
    (data : List ℚ) (out : String) (k : ℕ)
    (hk : k < totalWindows data.length)
    (hz : (0 : ℚ) ∈ windowGrid T fs m data k) :
    ("Caught divide by 0 error: " ++ (out ++ "_" ++ toString (1 + k)))
        ∈ (interate_data T fs m data out []).diags
      ∧ (∀ f ∈ (interate_data T fs m data out []).files, f.1 ≠ 1 + k)
      ∧ (interate_data T fs m data out []).trace.length
          = totalWindows data.length := by
  rw [interate_data_eq]
  refine ⟨?_, ?_, ?_⟩
  · exact List.mem_map.2
      ⟨k, List.mem_filter.2 ⟨List.mem_range.2 hk, by simp [hz]⟩, rfl⟩
  · intro f hf hcontra
    obtain ⟨k2, hk2, rfl⟩ := List.mem_map.1 hf
    have h12 : 1 + k2 = 1 + k := hcontra
    have hkk : k2 = k := by omega
    have hk2f := (List.mem_filter.1 hk2).2
    rw [hkk] at hk2f
    simp [hz] at hk2f
  · rw [List.length_map, List.length_range]

set_option maxRecDepth 8000 in
theorem render_zero_grid_skipped_witness :
    (0 < totalWindows (List.replicate 300 (1 : ℚ)).length
      ∧ (0 : ℚ) ∈ windowGrid (fun _ _ _ => [(0 : ℚ)]) 128 64 (List.replicate 300 (1 : ℚ)) 0)
    ∧ (("Caught divide by 0 error: " ++ ("out" ++ "_" ++ toString (1 + 0)))
          ∈ (interate_data (fun _ _ _ => [(0 : ℚ)]) 128 64
               (List.replicate 300 (1 : ℚ)) "out" []).diags
        ∧ (∀ f ∈ (interate_data (fun _ _ _ => [(0 : ℚ)]) 128 64
                    (List.replicate 300 (1 : ℚ)) "out" []).files, f.1 ≠ 1 + 0)
        ∧ (interate_data (fun _ _ _ => [(0 : ℚ)]) 128 64
             (List.replicate 300 (1 : ℚ)) "out" []).trace.length
            = totalWindows (List.replicate 300 (1 : ℚ)).length) :=
  ⟨⟨by decide, by decide⟩,
    render_zero_grid_skipped (fun _ _ _ => [(0 : ℚ)]) 128 64
      (List.replicate 300 (1 : ℚ)) "out" 0 (by decide) (by decide)⟩

lemma range_filter_eq_single (t k : ℕ) (hk : k < t) :
    (List.range t).filter (fun x => x == k) = [k] := by
  induction t with
  | zero => omega
  | succ t ih =>
    rw [List.range_succ, List.filter_append]
    by_cases h : k < t
    · have ht : ((t == k) : Bool) = false := beq_eq_false_iff_ne.2 (by omega)
      rw [ih h]
      simp [List.filter_cons, ht]
    · have hkt : k = t := by omega
      have h0 : (List.range t).filter (fun x => x == k) = [] := by
        apply List.filter_eq_nil_iff.2
        intro a ha
        have halt := List.mem_range.1 ha
        simp only [beq_iff_eq]
        omega
      rw [h0, hkt]
      simp [List.filter_cons]

/-- C7: a window whose power grid contains only strictly positive values is
rendered to exactly one output file, tagged with the ordinal `1 + k` of its
0-based window position `k` and named by the output prefix followed by an
underscore and that ordinal. -/
theorem render_positive_grid_renders (T : ℕ → ℕ → List ℚ → List ℚ) (fs m : ℕ)
    (data : List ℚ) (out : String) (k : ℕ)
    (hk : k < totalWindows data.length)
    (hp : ∀ x ∈ windowGrid T fs m data k, 0 < x) :
    (interate_data T fs m data out []).files.filter (fun f => f.1 == 1 + k)
      = [(1 + k, out ++ "_" ++ toString (1 + k), [windowGrid T fs m data k])] := by
  have hnz : (0 : ℚ) ∉ windowGrid T fs m data k := by
    intro hmem
    exact absurd (hp 0 hmem) (by norm_num)
  rw [interate_data_eq]
  rw [filter_map_comm, List.filter_filter]
  rw [List.filter_congr (q := fun x => x == k) ?_]
  · rw [range_filter_eq_single _ k hk]
    rfl
  · intro x hx
    by_cases hxk : x = k
    · subst hxk
      simp [hnz]
    · have hne : ((1 + x == 1 + k) : Bool) = false := beq_eq_false_iff_ne.2 (by omega)
      have hne2 : ((x == k) : Bool) = false := beq_eq_false_iff_ne.2 hxk
      simp [hne, hne2]

set_option maxRecDepth 8000 in
theorem render_positive_grid_renders_witness :
    (0 < totalWindows (List.replicate 300 (1 : ℚ)).length
      ∧ ∀ x ∈ windowGrid (fun _ _ _ => [(1 : ℚ)]) 128 64 (List.replicate 300 (1 : ℚ)) 0, 0 < x)
    ∧ (interate_data (fun _ _ _ => [(1 : ℚ)]) 128 64
         (List.replicate 300 (1 : ℚ)) "out" []).files.filter (fun f => f.1 == 1 + 0)
        = [(1 + 0, "out" ++ "_" ++ toString (1 + 0),
            [windowGrid (fun _ _ _ => [(1 : ℚ)]) 128 64 (List.replicate 300 (1 : ℚ)) 0])] :=
  ⟨⟨by decide, by decide⟩,
    render_positive_grid_renders (fun _ _ _ => [(1 : ℚ)]) 128 64
      (List.replicate 300 (1 : ℚ)) "out" 0 (by decide) (by decide)⟩

/-- C8: starting from an empty shared drawing surface, every written image
contains exactly the grid drawn for its own window and nothing else, and
the surface is empty again when the invocation finishes: a successful write
clears the surface with `plt.clf()` and a skipped window draws nothing (the
logarithm raises before `plt.pcolormesh` runs), so the surface is clear
before every window begins and no image compounds content drawn for a
previous window. -/
theorem render_no_compounding (T : ℕ → ℕ → List ℚ → List ℚ) (fs m : ℕ)
    (data : List ℚ) (out : String) :
    (interate_data T fs m data out []).files.map (fun f => f.2.2)
        = ((List.range (totalWindows data.length)).filter
            (fun k => !decide ((0 : ℚ) ∈ windowGrid T fs m data k))).map
            (fun k => [windowGrid T fs m data k])
      ∧ (interate_data T fs m data out []).canvas = [] := by
  rw [interate_data_eq]
  exact ⟨by rw [List.map_map]; rfl, rfl⟩

/-- C9: rendering is deterministic in paths, ordinals and counts: running
`interate_data` a second time with identical inputs, on the drawing surface
left behind by the first run, reproduces the identical output (same files
with same paths and images, same diagnostics, same trace), because the
first run leaves the surface empty. -/
theorem render_deterministic_rerun (T : ℕ → ℕ → List ℚ → List ℚ) (fs m : ℕ)
    (data : List ℚ) (out : String) :
    interate_data T fs m data out ((interate_data T fs m data out []).canvas)
      = interate_data T fs m data out [] := by
  have h : (interate_data T fs m data out []).canvas = [] := by
    rw [interate_data_eq]
  rw [h]
